import Mathlib

/-!
# Verification of the oilrad two-stream radiative transfer models

Shallow embedding of the closed-form single-layer and two-layer two-stream
solutions (`src/oilrad/single_layer.py`, `src/oilrad/two_layer.py`), the band
lookup functions (`src/oilrad/constants.py`), the six band solver short-circuit
(`src/oilrad/six_band.py`), the irradiance result types
(`src/oilrad/irradiance.py`) and the fast-path dispatch of
`solve_two_stream_model` (`src/oilrad/solve.py`).

Wavelength-dependent optical coefficients come from interpolated empirical
tables (`src/oilrad/optics.py`); the absorption coefficient value `k` and the
scattering coefficient value `r` at a given wavelength are therefore taken as
real parameters, while the extinction coefficient is computed from them exactly
as `calculate_ice_oil_extinction_coefficient` does.  Python floats are embedded
as real numbers; quantities that are only compared or branched on (wavelengths,
snow/SSL depths, oil mass ratios in validity checks) are embedded as rationals
so that the branching is decidable, mirroring the exact comparisons the code
performs.
-/

namespace Oilrad

/-! ## Optics (`src/oilrad/optics.py`)

`calculate_ice_oil_extinction_coefficient` returns `sqrt (k^2 + 2*k*r)` where
`k` is the ice+oil absorption coefficient and `r` the scattering coefficient. -/

/-- Extinction coefficient `sqrt (k^2 + 2 k r)` from
`calculate_ice_oil_extinction_coefficient`. -/
noncomputable def extinction (k r : ℝ) : ℝ := Real.sqrt (k ^ 2 + 2 * k * r)

/-! ## Single layer model (`src/oilrad/single_layer.py`)

The model's wavelength-dependent lookups `k(L)` and `r` are abstracted into the
real parameters `k` and `r`; every other formula is transcribed verbatim. -/

namespace SingleLayer

/-- `SingleLayerModel.s`: optically thick single layer albedo. -/
noncomputable def s (k r : ℝ) : ℝ := (extinction k r - k) / (extinction k r + k)

/-- `SingleLayerModel.opt_depth`: optical depth `mu * ice_thickness`. -/
noncomputable def opt_depth (k r H : ℝ) : ℝ := extinction k r * H

/-- `SingleLayerModel.A`: exponential basis coefficient. -/
noncomputable def A (k r H : ℝ) : ℝ :=
  s k r * (1 / (1 - Real.exp (-2 * opt_depth k r H) *
    ((k + r - extinction k r) / (k + r + extinction k r))))

/-- `SingleLayerModel.upwelling`. -/
noncomputable def upwelling (k r H z : ℝ) : ℝ :=
  A k r H * (Real.exp (extinction k r * z) -
    Real.exp (-(extinction k r) * z) / Real.exp (2 * opt_depth k r H))

/-- `SingleLayerModel.downwelling`. -/
noncomputable def downwelling (k r H z : ℝ) : ℝ :=
  (A k r H / s k r) * Real.exp (extinction k r * z) +
    (1 - A k r H / s k r) * Real.exp (-(extinction k r) * z)

/-- `SingleLayerModel.albedo`: closed form `r/(k + r + mu/tanh(opt_depth))`. -/
noncomputable def albedo (k r H : ℝ) : ℝ :=
  r / (k + r + extinction k r / Real.tanh (opt_depth k r H))

/-- `SingleLayerModel.transmittance`: downwelling at the ice base. -/
noncomputable def transmittance (k r H : ℝ) : ℝ := downwelling k r H (-H)

end SingleLayer

/-! ### Basic facts about the extinction coefficient -/

theorem extinction_sq (k r : ℝ) (hk : 0 ≤ k) (hr : 0 ≤ r) :
    extinction k r ^ 2 = k ^ 2 + 2 * k * r := by
  unfold extinction
  exact Real.sq_sqrt (by positivity)

theorem extinction_pos (k r : ℝ) (hk : 0 < k) (hr : 0 ≤ r) :
    0 < extinction k r := by
  unfold extinction
  rw [Real.sqrt_pos]
  positivity

theorem lt_extinction (k r : ℝ) (hk : 0 < k) (hr : 0 < r) :
    k < extinction k r := by
  unfold extinction
  rw [Real.lt_sqrt hk.le]
  nlinarith

theorem extinction_lt (k r : ℝ) (hk : 0 < k) (hr : 0 < r) :
    extinction k r < k + r := by
  unfold extinction
  rw [Real.sqrt_lt' (by linarith)]
  nlinarith

/-- Closure relation in product form: with `P = mu + k + r` and `Q = k + r - mu`,
`P * Q = r ^ 2`. -/
theorem extinction_PQ (k r : ℝ) (hk : 0 ≤ k) (hr : 0 ≤ r) :
    (extinction k r + k + r) * (k + r - extinction k r) = r ^ 2 := by
  have h := extinction_sq k r hk hr
  nlinarith [h]

/-- The optically thick albedo factor `s = (mu - k)/(mu + k)` equals
`r / (mu + k + r)`: a consequence of `mu^2 = k^2 + 2 k r`. -/
theorem s_eq (k r : ℝ) (hk : 0 < k) (hr : 0 < r) :
    SingleLayer.s k r = r / (extinction k r + k + r) := by
  have hsq := extinction_sq k r hk.le hr.le
  have hμ : 0 < extinction k r := extinction_pos k r hk hr.le
  have h1 : extinction k r + k ≠ 0 := by linarith
  have h2 : extinction k r + k + r ≠ 0 := by linarith
  unfold SingleLayer.s
  field_simp
  nlinarith [hsq]

/-- Dual form: `s = (k + r - mu) / r`. -/
theorem s_eq' (k r : ℝ) (hk : 0 < k) (hr : 0 < r) :
    SingleLayer.s k r = (k + r - extinction k r) / r := by
  rw [s_eq k r hk hr]
  have hPQ := extinction_PQ k r hk.le hr.le
  have hμ : 0 < extinction k r := extinction_pos k r hk hr.le
  have h2 : extinction k r + k + r ≠ 0 := by linarith
  field_simp
  nlinarith [hPQ]

/-! ### Single layer: normalized forms

With `P = k + r + mu`, `Q = k + r - mu` and `e2 = exp (-2 * opt_depth)`, the
closed forms reduce to rational expressions over the positive denominator
`Delta = P - e2 * Q`. -/

theorem Delta_pos (k r H : ℝ) (hk : 0 < k) (hr : 0 < r) (hH : 0 < H) :
    0 < (k + r + extinction k r) -
      Real.exp (-2 * SingleLayer.opt_depth k r H) * (k + r - extinction k r) := by
  have hμ := extinction_pos k r hk hr.le
  have hQ : 0 < k + r - extinction k r := sub_pos.mpr (extinction_lt k r hk hr)
  have hτ : 0 < SingleLayer.opt_depth k r H := by
    unfold SingleLayer.opt_depth; positivity
  have he : Real.exp (-2 * SingleLayer.opt_depth k r H) < 1 :=
    Real.exp_lt_one_iff.mpr (by linarith)
  nlinarith [Real.exp_pos (-2 * SingleLayer.opt_depth k r H)]

theorem albedo_eq (k r H : ℝ) (hk : 0 < k) (hr : 0 < r) (hH : 0 < H) :
    SingleLayer.albedo k r H =
      r * (1 - Real.exp (-2 * SingleLayer.opt_depth k r H)) /
        ((k + r + extinction k r) -
          Real.exp (-2 * SingleLayer.opt_depth k r H) * (k + r - extinction k r)) := by
  have hμ : 0 < extinction k r := extinction_pos k r hk hr.le
  have hτ : 0 < SingleLayer.opt_depth k r H := by
    unfold SingleLayer.opt_depth; positivity
  have hΔ := Delta_pos k r H hk hr hH
  unfold SingleLayer.albedo
  rw [Real.tanh_eq_sinh_div_cosh, Real.sinh_eq, Real.cosh_eq, Real.exp_neg,
    show (-2 : ℝ) * SingleLayer.opt_depth k r H =
      -SingleLayer.opt_depth k r H + -SingleLayer.opt_depth k r H by ring,
    Real.exp_add, Real.exp_neg]
  set x := Real.exp (SingleLayer.opt_depth k r H) with hxdef
  have hx1 : 1 < x := Real.one_lt_exp_iff.mpr hτ
  have hx0 : 0 < x := by linarith
  have hxsub : 0 < x - x⁻¹ := by
    have : x⁻¹ < 1 := by
      rw [inv_lt_one_iff₀]; right; exact hx1
    linarith
  have hxadd : 0 < x + x⁻¹ := by positivity
  have hden : 0 < k + r + extinction k r / ((x - x⁻¹) / 2 / ((x + x⁻¹) / 2)) := by
    have : 0 < extinction k r / ((x - x⁻¹) / 2 / ((x + x⁻¹) / 2)) := by positivity
    linarith
  have hΔ' : (k + r + extinction k r) - x⁻¹ * x⁻¹ * (k + r - extinction k r) ≠ 0 := by
    have : Real.exp (-2 * SingleLayer.opt_depth k r H) = x⁻¹ * x⁻¹ := by
      rw [show (-2 : ℝ) * SingleLayer.opt_depth k r H =
        -SingleLayer.opt_depth k r H + -SingleLayer.opt_depth k r H by ring,
        Real.exp_add, Real.exp_neg]
    rw [← this]; exact ne_of_gt (by rw [this]; nlinarith [hΔ, this])
  rw [div_eq_div_iff (ne_of_gt hden) hΔ']
  have hxx : (-1 : ℝ) + x ^ 2 ≠ 0 := by nlinarith
  field_simp [hx0.ne', hxx]
  have hinv : (-1 + x ^ 2) * (-1 + x ^ 2)⁻¹ = 1 := mul_inv_cancel₀ hxx
  linear_combination (-(r * extinction k r * (1 + x ^ 2))) * hinv

theorem A_eq (k r H : ℝ) (hk : 0 < k) (hr : 0 < r) (hH : 0 < H) :
    SingleLayer.A k r H =
      r / ((k + r + extinction k r) -
        Real.exp (-2 * SingleLayer.opt_depth k r H) * (k + r - extinction k r)) := by
  have hμ : 0 < extinction k r := extinction_pos k r hk hr.le
  have hΔ := Delta_pos k r H hk hr hH
  have hP : (0:ℝ) < k + r + extinction k r := by linarith
  unfold SingleLayer.A
  rw [s_eq k r hk hr]
  have hinner : 1 - Real.exp (-2 * SingleLayer.opt_depth k r H) *
      ((k + r - extinction k r) / (k + r + extinction k r)) =
      ((k + r + extinction k r) -
        Real.exp (-2 * SingleLayer.opt_depth k r H) * (k + r - extinction k r)) /
        (k + r + extinction k r) := by
    field_simp
  rw [hinner]
  rw [show extinction k r + k + r = k + r + extinction k r by ring]
  field_simp

/-- C2: for the single-layer model with positive absorption and scattering and
positive ice thickness, the upwelling solution at the surface `z = 0` equals the
closed-form albedo `r/(k + r + mu * coth(mu * H))` returned by the `albedo`
accessor, and equivalently the exponential-basis coefficient `A` satisfies
`A * (1 - exp (-2 * opt_depth)) = albedo`. -/
theorem C2_single_layer_surface_upwelling_eq_albedo (k r H : ℝ)
    (hk : 0 < k) (hr : 0 < r) (hH : 0 < H) :
    SingleLayer.upwelling k r H 0 = SingleLayer.albedo k r H ∧
    SingleLayer.A k r H * (1 - Real.exp (-2 * SingleLayer.opt_depth k r H)) =
      SingleLayer.albedo k r H := by
  have hA := A_eq k r H hk hr hH
  have halb := albedo_eq k r H hk hr hH
  have hΔ := Delta_pos k r H hk hr hH
  have hup : SingleLayer.upwelling k r H 0 =
      SingleLayer.A k r H * (1 - Real.exp (-2 * SingleLayer.opt_depth k r H)) := by
    unfold SingleLayer.upwelling
    rw [show extinction k r * (0:ℝ) = 0 by ring, show -(extinction k r) * (0:ℝ) = 0 by ring,
      Real.exp_zero,
      show (-2 : ℝ) * SingleLayer.opt_depth k r H = -(2 * SingleLayer.opt_depth k r H) by ring,
      Real.exp_neg]
    ring
  constructor
  · rw [hup, hA, halb]; field_simp
  · rw [hA, halb]; field_simp

/-- Witness for C2 at `k = r = H = 1`. -/
theorem C2_witness :
    ((0:ℝ) < 1 ∧ (0:ℝ) < 1 ∧ (0:ℝ) < 1) ∧
    (SingleLayer.upwelling 1 1 1 0 = SingleLayer.albedo 1 1 1 ∧
     SingleLayer.A 1 1 1 * (1 - Real.exp (-2 * SingleLayer.opt_depth 1 1 1)) =
       SingleLayer.albedo 1 1 1) :=
  ⟨⟨by norm_num, by norm_num, by norm_num⟩,
   C2_single_layer_surface_upwelling_eq_albedo 1 1 1 (by norm_num) (by norm_num) (by norm_num)⟩

theorem transmittance_eq (k r H : ℝ) (hk : 0 < k) (hr : 0 < r) (hH : 0 < H) :
    SingleLayer.transmittance k r H =
      2 * extinction k r * Real.exp (-SingleLayer.opt_depth k r H) /
        ((k + r + extinction k r) -
          Real.exp (-2 * SingleLayer.opt_depth k r H) * (k + r - extinction k r)) := by
  have hμ : 0 < extinction k r := extinction_pos k r hk hr.le
  have hΔ := Delta_pos k r H hk hr hH
  have hP : (0:ℝ) < k + r + extinction k r := by linarith
  unfold SingleLayer.transmittance SingleLayer.downwelling
  rw [A_eq k r H hk hr hH, s_eq k r hk hr,
    show extinction k r * -H = -SingleLayer.opt_depth k r H by
      unfold SingleLayer.opt_depth; ring,
    show -(extinction k r) * -H = SingleLayer.opt_depth k r H by
      unfold SingleLayer.opt_depth; ring]
  have hexp : Real.exp (SingleLayer.opt_depth k r H) =
      (Real.exp (-SingleLayer.opt_depth k r H))⁻¹ := by
    rw [← Real.exp_neg, neg_neg]
  have hE2 : Real.exp (-2 * SingleLayer.opt_depth k r H) =
      Real.exp (-SingleLayer.opt_depth k r H) ^ 2 := by
    rw [sq, ← Real.exp_add]; ring_nf
  rw [hexp, hE2]
  rw [hE2] at hΔ
  set E := Real.exp (-SingleLayer.opt_depth k r H) with hEdef
  have hE0 : 0 < E := Real.exp_pos _
  have hΔ' : (k + r + extinction k r) - E ^ 2 * (k + r - extinction k r) ≠ 0 :=
    ne_of_gt hΔ
  rw [show extinction k r + k + r = k + r + extinction k r by ring]
  field_simp
  ring

/-- C6 counterexample: at zero absorption (`k = 0`, `r = 1`, `H = 1`), a
configuration allowed by the claim's precondition (non-negative coefficients,
not both zero), the energy partition bound fails: in the total-function real
embedding the albedo alone evaluates to `1` and the transmittance to `1`, so
their sum is `2 > 1` (the Python code divides `0/0` there and produces NaN, for
which the bound also does not hold). -/
theorem C6_counterexample :
    ¬ (SingleLayer.albedo 0 1 1 + SingleLayer.transmittance 0 1 1 ≤ 1) := by
  have hext : extinction 0 1 = 0 := by
    unfold extinction
    norm_num
  have halb : SingleLayer.albedo 0 1 1 = 1 := by
    unfold SingleLayer.albedo SingleLayer.opt_depth
    rw [hext]
    norm_num
  have hs : SingleLayer.s 0 1 = 0 := by
    unfold SingleLayer.s
    rw [hext]
    norm_num
  have hA : SingleLayer.A 0 1 1 = 0 := by
    unfold SingleLayer.A
    rw [hs]
    ring
  have htr : SingleLayer.transmittance 0 1 1 = 1 := by
    unfold SingleLayer.transmittance SingleLayer.downwelling
    rw [hA, hs, hext]
    norm_num
  rw [halb, htr]
  norm_num

/-- C6 (amended): for strictly positive absorption and scattering coefficients
and positive ice thickness, albedo + transmittance is strictly below `1` (hence
`<= 1`, with equality only approached in the no-absorption limit `k -> 0`). -/
theorem C6_energy_partition_bound (k r H : ℝ) (hk : 0 < k) (hr : 0 < r) (hH : 0 < H) :
    SingleLayer.albedo k r H + SingleLayer.transmittance k r H < 1 := by
  have hμ : 0 < extinction k r := extinction_pos k r hk hr.le
  have hΔ := Delta_pos k r H hk hr hH
  have hτ : 0 < SingleLayer.opt_depth k r H := by
    unfold SingleLayer.opt_depth; positivity
  have hE1 : Real.exp (-SingleLayer.opt_depth k r H) < 1 :=
    Real.exp_lt_one_iff.mpr (by linarith)
  have hE0 : 0 < Real.exp (-SingleLayer.opt_depth k r H) := Real.exp_pos _
  have hE2 : Real.exp (-2 * SingleLayer.opt_depth k r H) =
      Real.exp (-SingleLayer.opt_depth k r H) ^ 2 := by
    rw [sq, ← Real.exp_add]; ring_nf
  rw [albedo_eq k r H hk hr hH, transmittance_eq k r H hk hr hH, div_add_div_same,
    div_lt_one hΔ, hE2]
  set E := Real.exp (-SingleLayer.opt_depth k r H)
  nlinarith [sq_nonneg (1 - E), mul_pos hk (mul_pos (sub_pos.mpr hE1) (by linarith : (0:ℝ) < 1 + E))]

/-- Witness for the amended C6 at `k = r = H = 1`. -/
theorem C6_witness :
    ((0:ℝ) < 1 ∧ (0:ℝ) < 1 ∧ (0:ℝ) < 1) ∧
    SingleLayer.albedo 1 1 1 + SingleLayer.transmittance 1 1 1 < 1 :=
  ⟨⟨by norm_num, by norm_num, by norm_num⟩,
   C6_energy_partition_bound 1 1 1 (by norm_num) (by norm_num) (by norm_num)⟩

/-! ## Two layer model (`src/oilrad/two_layer.py`)

The top sub-layer (fraction `f` of the thickness, absorption `k1` including the
concentrated oil) and the bottom oil-free sub-layer (absorption `k2`) share the
scattering coefficient `r`.  `s1`/`s2` of the source coincide with
`SingleLayer.s` applied to the per-layer absorption coefficient. -/

namespace TwoLayer

/-- `TwoLayerModel.optical_depth1`: `thickness_ratio * ice_thickness * mu1`. -/
noncomputable def optical_depth1 (k1 r f H : ℝ) : ℝ := f * H * extinction k1 r

/-- `TwoLayerModel.optical_depth2`: `(1 - thickness_ratio) * ice_thickness * mu2`. -/
noncomputable def optical_depth2 (k2 r f H : ℝ) : ℝ := (1 - f) * H * extinction k2 r

/-- `TwoLayerModel.gamma1`: single layer albedo of the top sub-layer. -/
noncomputable def gamma1 (k1 r f H : ℝ) : ℝ :=
  r / (extinction k1 r / Real.tanh (optical_depth1 k1 r f H) + k1 + r)

/-- `TwoLayerModel.gamma2`: single layer albedo of the bottom sub-layer. -/
noncomputable def gamma2 (k2 r f H : ℝ) : ℝ :=
  r / (extinction k2 r / Real.tanh (optical_depth2 k2 r f H) + k2 + r)

/-- `TwoLayerModel.albedo`: two-layer stacking formula. -/
noncomputable def albedo (k1 k2 r f H : ℝ) : ℝ :=
  (gamma1 k1 r f H / (1 - gamma1 k1 r f H * gamma2 k2 r f H)) *
    (1 + (extinction k1 r / Real.tanh (optical_depth1 k1 r f H) - (k1 + r)) /
      (extinction k2 r / Real.tanh (optical_depth2 k2 r f H) + (k2 + r)))

/-- `TwoLayerModel.A2`: coupling amplitude of the bottom sub-layer. -/
noncomputable def A2 (k1 k2 r f H : ℝ) : ℝ :=
  (r / extinction k1 r) * Real.sinh (optical_depth1 k1 r f H) *
    (albedo k1 k2 r f H / gamma1 k1 r f H - 1)

/-- `TwoLayerModel._upwelling_1`: upwelling in the top sub-layer. -/
noncomputable def upwelling_1 (k1 k2 r f H z : ℝ) : ℝ :=
  (r / (2 * extinction k1 r)) *
    ((1 - albedo k1 k2 r f H * SingleLayer.s k1 r) * Real.exp (extinction k1 r * z) +
     (albedo k1 k2 r f H / SingleLayer.s k1 r - 1) * Real.exp (-(extinction k1 r) * z))

/-- `TwoLayerModel._downwelling_1`: downwelling in the top sub-layer. -/
noncomputable def downwelling_1 (k1 k2 r f H z : ℝ) : ℝ :=
  (r / (2 * extinction k1 r)) *
    ((1 / SingleLayer.s k1 r - albedo k1 k2 r f H) * Real.exp (extinction k1 r * z) +
     (albedo k1 k2 r f H - SingleLayer.s k1 r) * Real.exp (-(extinction k1 r) * z))

/-- `TwoLayerModel._upwelling_2`: upwelling in the bottom sub-layer
(local coordinate). -/
noncomputable def upwelling_2 (k1 k2 r f H z : ℝ) : ℝ :=
  (A2 k1 k2 r f H / 2) *
    ((1 + 1 / Real.tanh (optical_depth2 k2 r f H)) * Real.exp (extinction k2 r * z) +
     (1 - 1 / Real.tanh (optical_depth2 k2 r f H)) * Real.exp (-(extinction k2 r) * z))

/-- `TwoLayerModel._downwelling_2`: downwelling in the bottom sub-layer
(local coordinate). -/
noncomputable def downwelling_2 (k1 k2 r f H z : ℝ) : ℝ :=
  (A2 k1 k2 r f H / 2) *
    (((1 + 1 / Real.tanh (optical_depth2 k2 r f H)) / SingleLayer.s k2 r) *
       Real.exp (extinction k2 r * z) -
     SingleLayer.s k2 r * (1 / Real.tanh (optical_depth2 k2 r f H) - 1) *
       Real.exp (-(extinction k2 r) * z))

end TwoLayer

/-- `1 / s = (mu + k + r) / r`, the dual of `s_eq`. -/
theorem one_div_s_eq (k r : ℝ) (hk : 0 < k) (hr : 0 < r) :
    1 / SingleLayer.s k r = (extinction k r + k + r) / r := by
  rw [s_eq k r hk hr, one_div_div]

/-- Upwelling continuity at the sub-layer interface of the two layer model. -/
theorem up_continuity (k1 k2 r f H : ℝ) (hk1 : 0 < k1) (hk2 : 0 < k2)
    (hr : 0 < r) (hf0 : 0 < f) (hf1 : f < 1) (hH : 0 < H) :
    TwoLayer.upwelling_1 k1 k2 r f H (-(f * H)) = TwoLayer.upwelling_2 k1 k2 r f H 0 := by
  have hμ1 := extinction_pos k1 r hk1 hr.le
  have hμ2 := extinction_pos k2 r hk2 hr.le
  have hd1 : 0 < TwoLayer.optical_depth1 k1 r f H := by
    unfold TwoLayer.optical_depth1; positivity
  have hd2 : 0 < TwoLayer.optical_depth2 k2 r f H := by
    unfold TwoLayer.optical_depth2
    have : 0 < 1 - f := by linarith
    positivity
  have hS1 : 0 < Real.sinh (TwoLayer.optical_depth1 k1 r f H) :=
    Real.sinh_pos_iff.mpr hd1
  have hC1 : 0 < Real.cosh (TwoLayer.optical_depth1 k1 r f H) := Real.cosh_pos _
  have hT2 : 0 < Real.tanh (TwoLayer.optical_depth2 k2 r f H) := by
    rw [Real.tanh_eq_sinh_div_cosh]
    have := Real.sinh_pos_iff.mpr hd2
    have := Real.cosh_pos (TwoLayer.optical_depth2 k2 r f H)
    positivity
  have hM : 0 < extinction k1 r * Real.cosh (TwoLayer.optical_depth1 k1 r f H) +
      (k1 + r) * Real.sinh (TwoLayer.optical_depth1 k1 r f H) := by positivity
  have ht1 : 1 < Real.exp (TwoLayer.optical_depth1 k1 r f H) :=
    Real.one_lt_exp_iff.mpr hd1
  have ht0 : 0 < Real.exp (TwoLayer.optical_depth1 k1 r f H) := Real.exp_pos _
  unfold TwoLayer.upwelling_1 TwoLayer.upwelling_2 TwoLayer.A2 TwoLayer.gamma1
  rw [show extinction k1 r * -(f * H) = -TwoLayer.optical_depth1 k1 r f H by
        unfold TwoLayer.optical_depth1; ring,
      show -(extinction k1 r) * -(f * H) = TwoLayer.optical_depth1 k1 r f H by
        unfold TwoLayer.optical_depth1; ring,
      show extinction k2 r * (0:ℝ) = 0 by ring,
      show -(extinction k2 r) * (0:ℝ) = 0 by ring,
      Real.exp_zero]
  rw [div_div_eq_mul_div,
      div_eq_mul_one_div (TwoLayer.albedo k1 k2 r f H) (SingleLayer.s k1 r),
      one_div_s_eq k1 r hk1 hr, s_eq' k1 r hk1 hr,
      Real.tanh_eq_sinh_div_cosh, Real.sinh_eq, Real.cosh_eq, Real.exp_neg]
  set t := Real.exp (TwoLayer.optical_depth1 k1 r f H) with htdef
  have htne : t ≠ 0 := ne_of_gt ht0
  have ht2 : t ^ 2 - 1 ≠ 0 := by nlinarith
  have ht2' : (-1 : ℝ) + t ^ 2 ≠ 0 := by nlinarith
  field_simp
  have hinv : (-1 + t ^ 2) * (-1 + t ^ 2)⁻¹ = 1 := mul_inv_cancel₀ ht2'
  linear_combination (-(4 * r ^ 3 * TwoLayer.albedo k1 k2 r f H * extinction k1 r ^ 2 *
    Real.tanh (TwoLayer.optical_depth2 k2 r f H) * t * (1 + t ^ 2))) * hinv

/-- Positivity of the combined denominator `M * D - r^2 sinh d1 tanh d2`
(equivalently `1 - gamma1 * gamma2 > 0`). -/
theorem MD_pos (k1 k2 r f H : ℝ) (hk1 : 0 < k1) (hk2 : 0 < k2)
    (hr : 0 < r) (hf0 : 0 < f) (hf1 : f < 1) (hH : 0 < H) :
    0 < (extinction k1 r * Real.cosh (TwoLayer.optical_depth1 k1 r f H) +
      (k1 + r) * Real.sinh (TwoLayer.optical_depth1 k1 r f H)) *
      (extinction k2 r + (k2 + r) * Real.tanh (TwoLayer.optical_depth2 k2 r f H)) -
      r ^ 2 * Real.sinh (TwoLayer.optical_depth1 k1 r f H) *
        Real.tanh (TwoLayer.optical_depth2 k2 r f H) := by
  have hμ1 := extinction_pos k1 r hk1 hr.le
  have hμ2 := extinction_pos k2 r hk2 hr.le
  have hd1 : 0 < TwoLayer.optical_depth1 k1 r f H := by
    unfold TwoLayer.optical_depth1; positivity
  have hd2 : 0 < TwoLayer.optical_depth2 k2 r f H := by
    unfold TwoLayer.optical_depth2
    have : 0 < 1 - f := by linarith
    positivity
  have hS1 : 0 < Real.sinh (TwoLayer.optical_depth1 k1 r f H) :=
    Real.sinh_pos_iff.mpr hd1
  have hC1 : 0 < Real.cosh (TwoLayer.optical_depth1 k1 r f H) := Real.cosh_pos _
  have hT2 : 0 < Real.tanh (TwoLayer.optical_depth2 k2 r f H) := by
    rw [Real.tanh_eq_sinh_div_cosh]
    have := Real.sinh_pos_iff.mpr hd2
    have := Real.cosh_pos (TwoLayer.optical_depth2 k2 r f H)
    positivity
  have h1 : 0 < extinction k1 r * Real.cosh (TwoLayer.optical_depth1 k1 r f H) *
      extinction k2 r := by positivity
  have h2 : 0 < extinction k1 r * Real.cosh (TwoLayer.optical_depth1 k1 r f H) *
      ((k2 + r) * Real.tanh (TwoLayer.optical_depth2 k2 r f H)) := by positivity
  have h3 : 0 < (k1 + r) * Real.sinh (TwoLayer.optical_depth1 k1 r f H) *
      extinction k2 r := by positivity
  have h4 : 0 < (k1 * k2 + k1 * r + k2 * r) *
      (Real.sinh (TwoLayer.optical_depth1 k1 r f H) *
        Real.tanh (TwoLayer.optical_depth2 k2 r f H)) := by positivity
  nlinarith [h1, h2, h3, h4]

/-- `gamma1` as a single fraction `r sinh d1 / (mu1 cosh d1 + (k1+r) sinh d1)`. -/
theorem gamma1_eq (k1 r f H : ℝ) (hk1 : 0 < k1) (hr : 0 < r)
    (hf0 : 0 < f) (hf1 : f < 1) (hH : 0 < H) :
    TwoLayer.gamma1 k1 r f H =
      r * Real.sinh (TwoLayer.optical_depth1 k1 r f H) /
        (extinction k1 r * Real.cosh (TwoLayer.optical_depth1 k1 r f H) +
          (k1 + r) * Real.sinh (TwoLayer.optical_depth1 k1 r f H)) := by
  have hμ1 := extinction_pos k1 r hk1 hr.le
  have hd1 : 0 < TwoLayer.optical_depth1 k1 r f H := by
    unfold TwoLayer.optical_depth1; positivity
  have hS1 : 0 < Real.sinh (TwoLayer.optical_depth1 k1 r f H) :=
    Real.sinh_pos_iff.mpr hd1
  have hC1 : 0 < Real.cosh (TwoLayer.optical_depth1 k1 r f H) := Real.cosh_pos _
  have hM : 0 < extinction k1 r * Real.cosh (TwoLayer.optical_depth1 k1 r f H) +
      (k1 + r) * Real.sinh (TwoLayer.optical_depth1 k1 r f H) := by positivity
  unfold TwoLayer.gamma1
  rw [Real.tanh_eq_sinh_div_cosh, div_div_eq_mul_div]
  have hden : (0:ℝ) < extinction k1 r * Real.cosh (TwoLayer.optical_depth1 k1 r f H) /
      Real.sinh (TwoLayer.optical_depth1 k1 r f H) + k1 + r := by positivity
  rw [div_eq_div_iff hden.ne' hM.ne']
  field_simp
  ring

/-- `gamma2` as a single fraction `r tanh d2 / (mu2 + (k2+r) tanh d2)`. -/
theorem gamma2_eq (k2 r f H : ℝ) (hk2 : 0 < k2) (hr : 0 < r)
    (hf0 : 0 < f) (hf1 : f < 1) (hH : 0 < H) :
    TwoLayer.gamma2 k2 r f H =
      r * Real.tanh (TwoLayer.optical_depth2 k2 r f H) /
        (extinction k2 r + (k2 + r) * Real.tanh (TwoLayer.optical_depth2 k2 r f H)) := by
  have hμ2 := extinction_pos k2 r hk2 hr.le
  have hd2 : 0 < TwoLayer.optical_depth2 k2 r f H := by
    unfold TwoLayer.optical_depth2
    have : 0 < 1 - f := by linarith
    positivity
  have hT2 : 0 < Real.tanh (TwoLayer.optical_depth2 k2 r f H) := by
    rw [Real.tanh_eq_sinh_div_cosh]
    have := Real.sinh_pos_iff.mpr hd2
    have := Real.cosh_pos (TwoLayer.optical_depth2 k2 r f H)
    positivity
  have hD : 0 < extinction k2 r + (k2 + r) * Real.tanh (TwoLayer.optical_depth2 k2 r f H) := by
    positivity
  unfold TwoLayer.gamma2
  have hden : (0:ℝ) < extinction k2 r / Real.tanh (TwoLayer.optical_depth2 k2 r f H) +
      k2 + r := by positivity
  rw [div_eq_div_iff hden.ne' hD.ne']
  field_simp
  ring

set_option maxHeartbeats 2000000 in
/-- The two-layer albedo as a single fraction: with `M = mu1 cosh d1 + (k1+r) sinh d1`
and `D = mu2 + (k2+r) tanh d2`,
`albedo = r (sinh d1 * D + (mu1 cosh d1 - (k1+r) sinh d1) tanh d2) / (M * D - r^2 sinh d1 tanh d2)`. -/
theorem albedo_eq2 (k1 k2 r f H : ℝ) (hk1 : 0 < k1) (hk2 : 0 < k2)
    (hr : 0 < r) (hf0 : 0 < f) (hf1 : f < 1) (hH : 0 < H) :
    TwoLayer.albedo k1 k2 r f H =
      r * (Real.sinh (TwoLayer.optical_depth1 k1 r f H) *
            (extinction k2 r + (k2 + r) * Real.tanh (TwoLayer.optical_depth2 k2 r f H)) +
          (extinction k1 r * Real.cosh (TwoLayer.optical_depth1 k1 r f H) -
            (k1 + r) * Real.sinh (TwoLayer.optical_depth1 k1 r f H)) *
            Real.tanh (TwoLayer.optical_depth2 k2 r f H)) /
        ((extinction k1 r * Real.cosh (TwoLayer.optical_depth1 k1 r f H) +
            (k1 + r) * Real.sinh (TwoLayer.optical_depth1 k1 r f H)) *
          (extinction k2 r + (k2 + r) * Real.tanh (TwoLayer.optical_depth2 k2 r f H)) -
          r ^ 2 * Real.sinh (TwoLayer.optical_depth1 k1 r f H) *
            Real.tanh (TwoLayer.optical_depth2 k2 r f H)) := by
  have hμ1 := extinction_pos k1 r hk1 hr.le
  have hμ2 := extinction_pos k2 r hk2 hr.le
  have hd1 : 0 < TwoLayer.optical_depth1 k1 r f H := by
    unfold TwoLayer.optical_depth1; positivity
  have hd2 : 0 < TwoLayer.optical_depth2 k2 r f H := by
    unfold TwoLayer.optical_depth2
    have : 0 < 1 - f := by linarith
    positivity
  have hS1 : 0 < Real.sinh (TwoLayer.optical_depth1 k1 r f H) :=
    Real.sinh_pos_iff.mpr hd1
  have hC1 : 0 < Real.cosh (TwoLayer.optical_depth1 k1 r f H) := Real.cosh_pos _
  have hT2 : 0 < Real.tanh (TwoLayer.optical_depth2 k2 r f H) := by
    rw [Real.tanh_eq_sinh_div_cosh]
    have := Real.sinh_pos_iff.mpr hd2
    have := Real.cosh_pos (TwoLayer.optical_depth2 k2 r f H)
    positivity
  have hM : 0 < extinction k1 r * Real.cosh (TwoLayer.optical_depth1 k1 r f H) +
      (k1 + r) * Real.sinh (TwoLayer.optical_depth1 k1 r f H) := by positivity
  have hD : 0 < extinction k2 r + (k2 + r) * Real.tanh (TwoLayer.optical_depth2 k2 r f H) := by
    positivity
  have hMD := MD_pos k1 k2 r f H hk1 hk2 hr hf0 hf1 hH
  unfold TwoLayer.albedo
  rw [gamma1_eq k1 r f H hk1 hr hf0 hf1 hH, gamma2_eq k2 r f H hk2 hr hf0 hf1 hH,
      Real.tanh_eq_sinh_div_cosh (TwoLayer.optical_depth1 k1 r f H), div_div_eq_mul_div]
  have hcomb : 1 - r * Real.sinh (TwoLayer.optical_depth1 k1 r f H) /
        (extinction k1 r * Real.cosh (TwoLayer.optical_depth1 k1 r f H) +
          (k1 + r) * Real.sinh (TwoLayer.optical_depth1 k1 r f H)) *
        (r * Real.tanh (TwoLayer.optical_depth2 k2 r f H) /
          (extinction k2 r + (k2 + r) * Real.tanh (TwoLayer.optical_depth2 k2 r f H))) =
      ((extinction k1 r * Real.cosh (TwoLayer.optical_depth1 k1 r f H) +
          (k1 + r) * Real.sinh (TwoLayer.optical_depth1 k1 r f H)) *
        (extinction k2 r + (k2 + r) * Real.tanh (TwoLayer.optical_depth2 k2 r f H)) -
          r ^ 2 * Real.sinh (TwoLayer.optical_depth1 k1 r f H) *
            Real.tanh (TwoLayer.optical_depth2 k2 r f H)) /
        ((extinction k1 r * Real.cosh (TwoLayer.optical_depth1 k1 r f H) +
            (k1 + r) * Real.sinh (TwoLayer.optical_depth1 k1 r f H)) *
          (extinction k2 r + (k2 + r) * Real.tanh (TwoLayer.optical_depth2 k2 r f H))) := by
    field_simp
    ring
  rw [hcomb, div_div_eq_mul_div]
  rw [div_mul_eq_mul_div, div_mul_eq_mul_div]
  rw [div_eq_div_iff (by positivity) hMD.ne']
  field_simp
  ring

set_option maxHeartbeats 4000000 in
/-- Downwelling continuity at the sub-layer interface of the two layer model. -/
theorem down_continuity (k1 k2 r f H : ℝ) (hk1 : 0 < k1) (hk2 : 0 < k2)
    (hr : 0 < r) (hf0 : 0 < f) (hf1 : f < 1) (hH : 0 < H) :
    TwoLayer.downwelling_1 k1 k2 r f H (-(f * H)) = TwoLayer.downwelling_2 k1 k2 r f H 0 := by
  have hμ1 := extinction_pos k1 r hk1 hr.le
  have hμ2 := extinction_pos k2 r hk2 hr.le
  have hd1 : 0 < TwoLayer.optical_depth1 k1 r f H := by
    unfold TwoLayer.optical_depth1; positivity
  have hd2 : 0 < TwoLayer.optical_depth2 k2 r f H := by
    unfold TwoLayer.optical_depth2
    have : 0 < 1 - f := by linarith
    positivity
  have hS1 : 0 < Real.sinh (TwoLayer.optical_depth1 k1 r f H) :=
    Real.sinh_pos_iff.mpr hd1
  have hC1 : 0 < Real.cosh (TwoLayer.optical_depth1 k1 r f H) := Real.cosh_pos _
  have hT2 : 0 < Real.tanh (TwoLayer.optical_depth2 k2 r f H) := by
    rw [Real.tanh_eq_sinh_div_cosh]
    have := Real.sinh_pos_iff.mpr hd2
    have := Real.cosh_pos (TwoLayer.optical_depth2 k2 r f H)
    positivity
  have hM : 0 < extinction k1 r * Real.cosh (TwoLayer.optical_depth1 k1 r f H) +
      (k1 + r) * Real.sinh (TwoLayer.optical_depth1 k1 r f H) := by positivity
  have hMD := MD_pos k1 k2 r f H hk1 hk2 hr hf0 hf1 hH
  unfold TwoLayer.downwelling_1 TwoLayer.downwelling_2 TwoLayer.A2 TwoLayer.gamma1
  rw [show extinction k1 r * -(f * H) = -TwoLayer.optical_depth1 k1 r f H by
        unfold TwoLayer.optical_depth1; ring,
      show -(extinction k1 r) * -(f * H) = TwoLayer.optical_depth1 k1 r f H by
        unfold TwoLayer.optical_depth1; ring,
      show extinction k2 r * (0:ℝ) = 0 by ring,
      show -(extinction k2 r) * (0:ℝ) = 0 by ring,
      Real.exp_zero, ← Real.cosh_sub_sinh, ← Real.sinh_add_cosh]
  rw [div_div_eq_mul_div,
      div_eq_mul_one_div (1 + 1 / Real.tanh (TwoLayer.optical_depth2 k2 r f H))
        (SingleLayer.s k2 r),
      one_div_s_eq k2 r hk2 hr, s_eq' k2 r hk2 hr,
      one_div_s_eq k1 r hk1 hr, s_eq' k1 r hk1 hr,
      albedo_eq2 k1 k2 r f H hk1 hk2 hr hf0 hf1 hH,
      Real.tanh_eq_sinh_div_cosh (TwoLayer.optical_depth1 k1 r f H)]
  generalize hgS : Real.sinh (TwoLayer.optical_depth1 k1 r f H) = S at hS1 hM hMD ⊢
  generalize hgC : Real.cosh (TwoLayer.optical_depth1 k1 r f H) = C at hC1 hM hMD ⊢
  generalize hgT : Real.tanh (TwoLayer.optical_depth2 k2 r f H) = T at hT2 hMD ⊢
  field_simp [hr.ne', hμ1.ne', hμ2.ne', hS1.ne', hC1.ne', hT2.ne', hM.ne', hMD.ne']
  ring

/-- C1: for the two-layer model with thickness_ratio in `(0,1)`, positive ice
thickness, positive scattering coefficient and positive per-layer absorption
coefficients (as produced by the tabulated optics for any supported wavelength
and non-negative oil mass ratio), the upwelling and downwelling fluxes are
continuous at the sub-layer interface: the top sub-layer formulas evaluated at
`z = -thickness_ratio * ice_thickness` agree with the bottom sub-layer formulas
evaluated at the shifted local coordinate `0`. -/
theorem C1_two_layer_interface_continuity (k1 k2 r f H : ℝ) (hk1 : 0 < k1)
    (hk2 : 0 < k2) (hr : 0 < r) (hf0 : 0 < f) (hf1 : f < 1) (hH : 0 < H) :
    TwoLayer.upwelling_1 k1 k2 r f H (-(f * H)) = TwoLayer.upwelling_2 k1 k2 r f H 0 ∧
    TwoLayer.downwelling_1 k1 k2 r f H (-(f * H)) = TwoLayer.downwelling_2 k1 k2 r f H 0 :=
  ⟨up_continuity k1 k2 r f H hk1 hk2 hr hf0 hf1 hH,
   down_continuity k1 k2 r f H hk1 hk2 hr hf0 hf1 hH⟩

/-- Witness for C1 at `k1 = 2, k2 = 1, r = 1, f = 1/2, H = 1`. -/
theorem C1_witness :
    ((0:ℝ) < 2 ∧ (0:ℝ) < 1 ∧ (0:ℝ) < 1 ∧ (0:ℝ) < 1/2 ∧ (1:ℝ)/2 < 1 ∧ (0:ℝ) < 1) ∧
    (TwoLayer.upwelling_1 2 1 1 (1/2) 1 (-(1/2 * 1)) = TwoLayer.upwelling_2 2 1 1 (1/2) 1 0 ∧
     TwoLayer.downwelling_1 2 1 1 (1/2) 1 (-(1/2 * 1)) = TwoLayer.downwelling_2 2 1 1 (1/2) 1 0) :=
  ⟨⟨by norm_num, by norm_num, by norm_num, by norm_num, by norm_num, by norm_num⟩,
   C1_two_layer_interface_continuity 2 1 1 (1/2) 1 (by norm_num) (by norm_num)
     (by norm_num) (by norm_num) (by norm_num) (by norm_num)⟩

/-! ## `solve_two_stream_model` fast path (`src/oilrad/solve.py`)

For an `InfiniteLayerModel` with `fast_solve` enabled the code computes
`cut_off_index = np.argmin(np.abs(wavelengths - wavelength_cutoff)) + 1`,
solves columns with index below `cut_off_index` with the per-wavelength BVP
solver, and fills the remaining columns with zeros except for a `1` in the last
row (`downwelling[-1, is_surface] = 1`, the surface node of the ascending
`z` grid).  Wavelengths and the cutoff are float values that are only compared;
they are embedded as rationals.  The per-wavelength solver
(`solve_at_given_wavelength`, imported by `solve.py` but not present in `src/`)
is a parameter of the embedding. -/

namespace Solve

/-- First-occurrence minimum of `|x - c|, |xs[0] - c|, ...`, matching
`np.argmin(np.abs(wavelengths - cutoff))`: returns the index and value of the
first minimal absolute difference. -/
def argminFrom (c x : ℚ) : List ℚ → ℕ × ℚ
  | [] => (0, |x - c|)
  | y :: ys =>
    let p := argminFrom c y ys
    if |x - c| ≤ p.2 then (0, |x - c|) else (p.1 + 1, p.2)

/-- `cut_off_index = np.argmin(np.abs(model.wavelengths - model.wavelength_cutoff)) + 1`. -/
def cutOffIndex (ws : List ℚ) (c : ℚ) : ℕ :=
  match ws with
  | [] => 0
  | x :: xs => (argminFrom c x xs).1 + 1

/-- Column of the upwelling array produced without `fast_solve`. -/
def fullUpwelling {nz : ℕ} (solver : ℚ → (Fin (nz + 1) → ℝ) × (Fin (nz + 1) → ℝ))
    (ws : List ℚ) (i : Fin ws.length) : Fin (nz + 1) → ℝ :=
  (solver (ws.get i)).1

/-- Column of the downwelling array produced without `fast_solve`. -/
def fullDownwelling {nz : ℕ} (solver : ℚ → (Fin (nz + 1) → ℝ) × (Fin (nz + 1) → ℝ))
    (ws : List ℚ) (i : Fin ws.length) : Fin (nz + 1) → ℝ :=
  (solver (ws.get i)).2

/-- Column of the upwelling array produced with `fast_solve`: columns at or
beyond the cutoff index are zeroed. -/
def fastUpwelling {nz : ℕ} (solver : ℚ → (Fin (nz + 1) → ℝ) × (Fin (nz + 1) → ℝ))
    (ws : List ℚ) (c : ℚ) (i : Fin ws.length) : Fin (nz + 1) → ℝ :=
  if (i : ℕ) < cutOffIndex ws c then (solver (ws.get i)).1 else fun _ => 0

/-- Column of the downwelling array produced with `fast_solve`: columns at or
beyond the cutoff index are zero except for a `1` at the last (surface) node. -/
def fastDownwelling {nz : ℕ} (solver : ℚ → (Fin (nz + 1) → ℝ) × (Fin (nz + 1) → ℝ))
    (ws : List ℚ) (c : ℚ) (i : Fin ws.length) : Fin (nz + 1) → ℝ :=
  if (i : ℕ) < cutOffIndex ws c then (solver (ws.get i)).2
  else fun j => if j = Fin.last nz then 1 else 0

theorem argminFrom_idx_lt (c x : ℚ) (xs : List ℚ) :
    (argminFrom c x xs).1 < (x :: xs).length := by
  induction xs generalizing x with
  | nil => simp [argminFrom]
  | cons y ys ih =>
    simp only [argminFrom]
    by_cases h : |x - c| ≤ (argminFrom c y ys).2
    · simp [h]
    · have := ih y
      simp only [List.length_cons] at this ⊢
      simp [h]
      omega

theorem argminFrom_is_min (c x : ℚ) (xs : List ℚ) (i : Fin (x :: xs).length) :
    (argminFrom c x xs).2 ≤ |(x :: xs).get i - c| := by
  induction xs generalizing x with
  | nil =>
    have hi : (i : ℕ) < 1 := by simpa using i.isLt
    have h0 : (i : ℕ) = 0 := by omega
    have : i = ⟨0, by simp⟩ := Fin.ext h0
    subst this
    simp [argminFrom]
  | cons y ys ih =>
    simp only [argminFrom]
    by_cases h : |x - c| ≤ (argminFrom c y ys).2
    · simp only [h, if_true]
      rcases Fin.eq_zero_or_eq_succ i with h0 | ⟨j, hj⟩
      · subst h0; simp
      · subst hj
        calc |x - c| ≤ (argminFrom c y ys).2 := h
        _ ≤ |(y :: ys).get j - c| := ih y j
        _ = |((x :: y :: ys).get j.succ) - c| := by simp
    · simp only [h, if_false]
      rcases Fin.eq_zero_or_eq_succ i with h0 | ⟨j, hj⟩
      · subst h0
        simp only [List.get]
        push_neg at h
        exact le_of_lt h
      · subst hj
        calc (argminFrom c y ys).2 ≤ |(y :: ys).get j - c| := ih y j
        _ = |((x :: y :: ys).get j.succ) - c| := by simp

theorem argminFrom_get (c x : ℚ) (xs : List ℚ) :
    |(x :: xs).get ⟨(argminFrom c x xs).1, argminFrom_idx_lt c x xs⟩ - c| =
      (argminFrom c x xs).2 := by
  induction xs generalizing x with
  | nil => simp [argminFrom]
  | cons y ys ih =>
    simp only [argminFrom]
    by_cases h : |x - c| ≤ (argminFrom c y ys).2
    · simp [h]
    · have := ih y
      simp only [h, if_false]
      convert this using 2

/-- A column with index below the cutoff index is solved by the full solver in
the fast path. -/
theorem solved_of_lt {nz : ℕ} (solver : ℚ → (Fin (nz + 1) → ℝ) × (Fin (nz + 1) → ℝ))
    (ws : List ℚ) (c : ℚ) (i : Fin ws.length) (h : (i : ℕ) < cutOffIndex ws c) :
    fastUpwelling solver ws c i = fullUpwelling solver ws i ∧
    fastDownwelling solver ws c i = fullDownwelling solver ws i := by
  constructor
  · unfold fastUpwelling fullUpwelling
    rw [if_pos h]
  · unfold fastDownwelling fullDownwelling
    rw [if_pos h]

/-- For a strictly ascending wavelength grid, every wavelength strictly below
the cutoff has index below the cutoff index. -/
theorem below_cutoff_lt_index (ws : List ℚ) (c : ℚ)
    (hsort : List.Sorted (· < ·) ws) (i : Fin ws.length) (hw : ws.get i < c) :
    (i : ℕ) < cutOffIndex ws c := by
  match ws, i with
  | x :: xs, i =>
    show (i : ℕ) < (argminFrom c x xs).1 + 1
    by_contra hcon
    push_neg at hcon
    have hjlt := argminFrom_idx_lt c x xs
    have hlt : (⟨(argminFrom c x xs).1, hjlt⟩ : Fin (x :: xs).length) < i := by
      rw [Fin.lt_def]
      simp only
      omega
    have hmono := hsort.rel_get_of_lt hlt
    have hget := argminFrom_get c x xs
    have hmin := argminFrom_is_min c x xs i
    have h1 : (x :: xs).get ⟨(argminFrom c x xs).1, hjlt⟩ < c := lt_trans hmono hw
    rw [abs_of_neg (by linarith : (x :: xs).get ⟨(argminFrom c x xs).1, hjlt⟩ - c < 0)] at hget
    rw [abs_of_neg (by linarith : (x :: xs).get i - c < 0)] at hmin
    linarith

end Solve

/-- C3 (amended): for a strictly ascending wavelength grid, every wavelength
strictly below the cutoff is solved by the full per-wavelength solver in the
fast path, so the fast-path and full columns coincide there — for any
per-wavelength solver. -/
theorem C3_fast_solve_below_cutoff {nz : ℕ}
    (solver : ℚ → (Fin (nz + 1) → ℝ) × (Fin (nz + 1) → ℝ))
    (ws : List ℚ) (c : ℚ) (hsort : List.Sorted (· < ·) ws)
    (i : Fin ws.length) (hw : ws.get i < c) :
    Solve.fastUpwelling solver ws c i = Solve.fullUpwelling solver ws i ∧
    Solve.fastDownwelling solver ws c i = Solve.fullDownwelling solver ws i :=
  Solve.solved_of_lt solver ws c i (Solve.below_cutoff_lt_index ws c hsort i hw)

/-- A trivial single-node column solver used to instantiate the C3 witness. -/
def constZeroSolver : ℚ → (Fin 1 → ℝ) × (Fin 1 → ℝ) :=
  fun _ => (fun _ => 0, fun _ => 0)

/-- Witness for the amended C3 on the grid `[1, 2]` with cutoff `3/2`. -/
theorem C3_witness :
    (List.Sorted (· < ·) [(1 : ℚ), 2] ∧ ([(1 : ℚ), 2].get ⟨0, by norm_num⟩ < 3/2)) ∧
    (Solve.fastUpwelling constZeroSolver [(1 : ℚ), 2] (3/2) ⟨0, by norm_num⟩ =
      Solve.fullUpwelling constZeroSolver [(1 : ℚ), 2] ⟨0, by norm_num⟩ ∧
     Solve.fastDownwelling constZeroSolver [(1 : ℚ), 2] (3/2) ⟨0, by norm_num⟩ =
      Solve.fullDownwelling constZeroSolver [(1 : ℚ), 2] ⟨0, by norm_num⟩) :=
  ⟨⟨by simp [List.sorted_cons], by norm_num [List.get]⟩,
   C3_fast_solve_below_cutoff constZeroSolver [(1 : ℚ), 2] (3/2)
     (by simp [List.sorted_cons]) ⟨0, by norm_num⟩ (by norm_num [List.get])⟩

/-- Modelled from the spec: the per-wavelength BVP solve
(`solve_at_given_wavelength`, which `solve.py` imports but whose defining
module version is not under `src/`) returns the two-stream solution columns on
the grid, with boundary conditions downwelling `= 1` at the surface and
upwelling `= 0` at the base; for a uniform optical profile this solution is the
closed-form single-layer solution. -/
noncomputable def modelledUniformSolver {nz : ℕ} (k r H : ℝ) (z : Fin (nz + 1) → ℝ) :
    ℚ → (Fin (nz + 1) → ℝ) × (Fin (nz + 1) → ℝ) :=
  fun _ => (fun j => SingleLayer.upwelling k r H (z j),
            fun j => SingleLayer.downwelling k r H (z j))

/-- C3 counterexample: on the unsorted wavelength grid `[1500, 400]` with
cutoff `1200`, the wavelength `400` at index `1` lies strictly below the
cutoff, yet the fast path zeroes its column (the cutoff index is
`argmin(|[1500,400] - 1200|) + 1 = 1`), so the fast and full downwelling
columns differ there: the full column's base value is the positive single
layer transmittance while the fast column's base value is `0`. -/
theorem C3_counterexample :
    ([(1500 : ℚ), 400].get ⟨1, by norm_num⟩ < 1200) ∧
    Solve.fastDownwelling (modelledUniformSolver 1 1 1 ![(-1 : ℝ), 0])
        [(1500 : ℚ), 400] 1200 ⟨1, by norm_num⟩ ≠
      Solve.fullDownwelling (modelledUniformSolver 1 1 1 ![(-1 : ℝ), 0])
        [(1500 : ℚ), 400] ⟨1, by norm_num⟩ := by
  constructor
  · norm_num [List.get]
  · intro h
    have hcut : Solve.cutOffIndex [(1500 : ℚ), 400] 1200 = 1 := by
      norm_num [Solve.cutOffIndex, Solve.argminFrom]
    have h0 := congrFun h ⟨0, by norm_num⟩
    unfold Solve.fastDownwelling Solve.fullDownwelling at h0
    rw [hcut] at h0
    rw [if_neg (by norm_num)] at h0
    have hne : (⟨0, by norm_num⟩ : Fin 2) ≠ Fin.last 1 := by decide
    rw [if_neg hne] at h0
    unfold modelledUniformSolver at h0
    simp only at h0
    have hval : (![(-1 : ℝ), 0] : Fin 2 → ℝ) ⟨0, by norm_num⟩ = -1 := rfl
    rw [hval] at h0
    have hpos : 0 < SingleLayer.downwelling 1 1 1 (-1) := by
      have h1 : SingleLayer.downwelling 1 1 1 (-1) = SingleLayer.transmittance 1 1 1 := by
        unfold SingleLayer.transmittance
        norm_num
      rw [h1, transmittance_eq 1 1 1 (by norm_num) (by norm_num) (by norm_num)]
      have hΔ := Delta_pos 1 1 1 (by norm_num) (by norm_num) (by norm_num)
      have hμ := extinction_pos 1 1 (by norm_num) (by norm_num)
      positivity
    rw [← h0] at hpos
    exact lt_irrefl 0 hpos

/-- C10: the fast-path cutoff index equals the index of the wavelength closest
to the cutoff plus one, so the closest wavelength itself and, in particular,
the first wavelength of any non-empty grid are always solved with the full
per-wavelength solver (their fast-path columns equal the full columns),
whatever the cutoff. -/
theorem C10_fast_solve_always_solves_first {nz : ℕ}
    (solver : ℚ → (Fin (nz + 1) → ℝ) × (Fin (nz + 1) → ℝ))
    (w : ℚ) (ws : List ℚ) (c : ℚ) :
    Solve.cutOffIndex (w :: ws) c = (Solve.argminFrom c w ws).1 + 1 ∧
    (Solve.fastUpwelling solver (w :: ws) c ⟨0, by simp⟩ =
      Solve.fullUpwelling solver (w :: ws) ⟨0, by simp⟩ ∧
     Solve.fastDownwelling solver (w :: ws) c ⟨0, by simp⟩ =
      Solve.fullDownwelling solver (w :: ws) ⟨0, by simp⟩) ∧
    (Solve.fastUpwelling solver (w :: ws) c
        ⟨(Solve.argminFrom c w ws).1, Solve.argminFrom_idx_lt c w ws⟩ =
      Solve.fullUpwelling solver (w :: ws)
        ⟨(Solve.argminFrom c w ws).1, Solve.argminFrom_idx_lt c w ws⟩ ∧
     Solve.fastDownwelling solver (w :: ws) c
        ⟨(Solve.argminFrom c w ws).1, Solve.argminFrom_idx_lt c w ws⟩ =
      Solve.fullDownwelling solver (w :: ws)
        ⟨(Solve.argminFrom c w ws).1, Solve.argminFrom_idx_lt c w ws⟩) := by
  refine ⟨rfl, ?_, ?_⟩
  · exact Solve.solved_of_lt solver (w :: ws) c ⟨0, by simp⟩
      (show 0 < (Solve.argminFrom c w ws).1 + 1 from Nat.succ_pos _)
  · exact Solve.solved_of_lt solver (w :: ws) c
      ⟨(Solve.argminFrom c w ws).1, Solve.argminFrom_idx_lt c w ws⟩
      (Nat.lt_succ_self _)

/-! ## Band constants and lookup functions (`src/oilrad/constants.py`)

Snow and SSL depths are float values that the code only scales and compares
(`SSL_depth > 0`, `== 0`, negative); they are embedded as rationals, cast to
reals inside the exponentials. -/

/-- `SNOW_SPECTRAL_ALBEDOS = [0.92, 0.96, 0.98, 0.98, 0.89, 0]`. -/
def SNOW_SPECTRAL_ALBEDOS : Fin 6 → ℝ
  | 0 => 0.92
  | 1 => 0.96
  | 2 => 0.98
  | 3 => 0.98
  | 4 => 0.89
  | 5 => 0

/-- `SSL_SPECTRAL_ALBEDOS = [0.79, 0.8, 0.79, 0.75, 0.5, 0]`. -/
def SSL_SPECTRAL_ALBEDOS : Fin 6 → ℝ
  | 0 => 0.79
  | 1 => 0.8
  | 2 => 0.79
  | 3 => 0.75
  | 4 => 0.5
  | 5 => 0

/-- `SNOW_EXTINCTION_COEFFICIENTS = [16.02, 15.55, 18.7, 30.15, 125.18, 1000]`. -/
def SNOW_EXTINCTION_COEFFICIENTS : Fin 6 → ℝ
  | 0 => 16.02
  | 1 => 15.55
  | 2 => 18.7
  | 3 => 30.15
  | 4 => 125.18
  | 5 => 1000

/-- `SSL_EXTINCTION_COEFFICIENTS = [3.02, 3.09, 4.21, 7.70, 85.56, 1000]`. -/
def SSL_EXTINCTION_COEFFICIENTS : Fin 6 → ℝ
  | 0 => 3.02
  | 1 => 3.09
  | 2 => 4.21
  | 3 => 7.70
  | 4 => 85.56
  | 5 => 1000

/-- `calculate_band_snow_albedo(snow_depth, i)`:
`SNOW_SPECTRAL_ALBEDOS[i] * (1 - exp(-snow_depth / 0.02))`. -/
noncomputable def calculate_band_snow_albedo (d : ℚ) (i : Fin 6) : ℝ :=
  SNOW_SPECTRAL_ALBEDOS i * (1 - Real.exp (-(d : ℝ) / 0.02))

/-- `calculate_band_snow_transmittance(snow_depth, i)`:
`(1 - snow_albedo) * exp(-SNOW_EXTINCTION_COEFFICIENTS[i] * snow_depth)`. -/
noncomputable def calculate_band_snow_transmittance (d : ℚ) (i : Fin 6) : ℝ :=
  (1 - calculate_band_snow_albedo d i) *
    Real.exp (-(SNOW_EXTINCTION_COEFFICIENTS i) * (d : ℝ))

/-- `calculate_band_SSL_albedo(SSL_depth, i)`: returns the tabulated albedo for
positive depth, `0` for zero depth, and raises
`ValueError("SSL depth must be non-negative")` for negative depth. -/
noncomputable def calculate_band_SSL_albedo (d : ℚ) (i : Fin 6) : Except String ℝ :=
  if 0 < d then Except.ok (SSL_SPECTRAL_ALBEDOS i)
  else if d = 0 then Except.ok 0
  else Except.error "SSL depth must be non-negative"

/-- `calculate_band_SSL_transmittance(SSL_depth, i)`:
`(1 - SSL_albedo) * exp(-SSL_EXTINCTION_COEFFICIENTS[i] * SSL_depth)`; it calls
the SSL albedo function, so it propagates the validation error for negative
depth. -/
noncomputable def calculate_band_SSL_transmittance (d : ℚ) (i : Fin 6) :
    Except String ℝ :=
  (calculate_band_SSL_albedo d i).map
    (fun a => (1 - a) * Real.exp (-(SSL_EXTINCTION_COEFFICIENTS i) * (d : ℝ)))

/-- The value `calculate_band_SSL_albedo` returns for non-negative depth. -/
noncomputable def SSL_albedo_value (d : ℚ) (i : Fin 6) : ℝ :=
  if 0 < d then SSL_SPECTRAL_ALBEDOS i else 0

/-- The value `calculate_band_SSL_transmittance` returns for non-negative depth. -/
noncomputable def SSL_transmittance_value (d : ℚ) (i : Fin 6) : ℝ :=
  (1 - SSL_albedo_value d i) * Real.exp (-(SSL_EXTINCTION_COEFFICIENTS i) * (d : ℝ))

/-! ## Irradiance result types (`src/oilrad/irradiance.py`) -/

/-- `SpectralIrradiance`: depth-by-wavelength irradiance arrays on the
ascending grid `z` (`z[0]` the domain bottom, `z[-1]` the surface), with
`_ice_base_index` locating the ice-ocean interface row (`0`, the bottom, for an
all-ice domain). -/
structure SpectralIrradiance (nz nw : ℕ) where
  z : Fin (nz + 1) → ℝ
  wavelengths : Fin nw → ℚ
  upwelling : Fin (nz + 1) → Fin nw → ℝ
  downwelling : Fin (nz + 1) → Fin nw → ℝ
  ice_base_index : Fin (nz + 1)

/-- `SpectralIrradiance.albedo = upwelling[-1, :]`. -/
def SpectralIrradiance.albedo {nz nw : ℕ} (s : SpectralIrradiance nz nw) :
    Fin nw → ℝ :=
  fun i => s.upwelling (Fin.last nz) i

/-- `SpectralIrradiance.transmittance = downwelling[_ice_base_index, :]`. -/
def SpectralIrradiance.transmittance {nz nw : ℕ} (s : SpectralIrradiance nz nw) :
    Fin nw → ℝ :=
  fun i => s.downwelling s.ice_base_index i

/-- `SixBandSpectralIrradiance`: depth-by-band irradiance arrays plus the snow
and SSL depths used for the combined albedo. -/
structure SixBandSpectralIrradiance (nz : ℕ) where
  z : Fin (nz + 1) → ℝ
  upwelling : Fin (nz + 1) → Fin 6 → ℝ
  downwelling : Fin (nz + 1) → Fin 6 → ℝ
  snow_depth : ℚ
  SSL_depth : ℚ
  ice_base_index : Fin (nz + 1)

/-- The ice-only albedo `upwelling[-1, :]` used inside
`SixBandSpectralIrradiance.albedo`. -/
def SixBandSpectralIrradiance.ice_albedo {nz : ℕ} (s : SixBandSpectralIrradiance nz) :
    Fin 6 → ℝ :=
  fun i => s.upwelling (Fin.last nz) i

/-- `SixBandSpectralIrradiance.albedo`: per band,
`snow_albedo + snow_transmittance * SSL_albedo
 + snow_transmittance * SSL_transmittance * ice_albedo`, propagating the
validation error of the SSL lookups. -/
noncomputable def SixBandSpectralIrradiance.albedo {nz : ℕ}
    (s : SixBandSpectralIrradiance nz) (i : Fin 6) : Except String ℝ :=
  (calculate_band_SSL_albedo s.SSL_depth i).bind fun ssl_a =>
    (calculate_band_SSL_transmittance s.SSL_depth i).map fun ssl_t =>
      calculate_band_snow_albedo s.snow_depth i +
        calculate_band_snow_transmittance s.snow_depth i * ssl_a +
        calculate_band_snow_transmittance s.snow_depth i * ssl_t * s.ice_albedo i

/-- `SixBandSpectralIrradiance.transmittance = downwelling[_ice_base_index, :]`. -/
def SixBandSpectralIrradiance.transmittance {nz : ℕ} (s : SixBandSpectralIrradiance nz) :
    Fin 6 → ℝ :=
  fun i => s.downwelling s.ice_base_index i

/-! ## Six band solver short-circuit (`src/oilrad/six_band.py`)

`solve_a_wavelength_band` dispatches band index `5` to an explicit closed form
and every other band to the `solve_bvp`-based solve, which is abstracted as a
parameter. -/

/-- `solve_a_wavelength_band(model, i)`: for `i = 5` no ODE solve is performed;
upwelling is identically zero, downwelling is zero except for the snow
transmittance (alone, not multiplied by SSL transmittance) at the last
(surface) node.  Other bands go to the BVP solver `bvp`. -/
noncomputable def solve_a_wavelength_band {nz : ℕ}
    (bvp : Fin 6 → (Fin (nz + 1) → ℝ) × (Fin (nz + 1) → ℝ))
    (snow_depth : ℚ) (i : Fin 6) : (Fin (nz + 1) → ℝ) × (Fin (nz + 1) → ℝ) :=
  if i = 5 then
    (fun _ => 0,
     fun j => if j = Fin.last nz then calculate_band_snow_transmittance snow_depth 5 else 0)
  else bvp i

/-! ## `TwoLayerModel.top_oil_mass_ratio` division semantics
(`src/oilrad/two_layer.py`)

The dataclass performs no validation of `thickness_ratio`; the only failure the
property can produce is Python's `ZeroDivisionError` when `thickness_ratio`
is exactly zero.  Oil mass ratio and thickness ratio are float inputs embedded
as rationals. -/

/-- `TwoLayerModel.top_oil_mass_ratio = oil_mass_ratio / thickness_ratio` with
Python float division semantics: raises `ZeroDivisionError` on a zero divisor
and otherwise returns the quotient, for any non-zero `thickness_ratio`. -/
def top_oil_mass_ratio (oil f : ℚ) : Except String ℚ :=
  if f = 0 then Except.error "ZeroDivisionError: float division by zero"
  else Except.ok (oil / f)

/-- C9: for every band index, the SSL band-albedo at depth `0` is `ok 0`, the
SSL band-transmittance at depth `0` is `ok 1`, and both raise the validation
error for any negative depth. -/
theorem C9_SSL_boundary_cases (i : Fin 6) (d : ℚ) :
    calculate_band_SSL_albedo 0 i = Except.ok 0 ∧
    calculate_band_SSL_transmittance 0 i = Except.ok 1 ∧
    (d < 0 →
      calculate_band_SSL_albedo d i = Except.error "SSL depth must be non-negative" ∧
      calculate_band_SSL_transmittance d i =
        Except.error "SSL depth must be non-negative") := by
  refine ⟨?_, ?_, fun hd => ⟨?_, ?_⟩⟩
  · unfold calculate_band_SSL_albedo
    norm_num
  · unfold calculate_band_SSL_transmittance calculate_band_SSL_albedo
    norm_num [Except.map, Real.exp_zero]
  · unfold calculate_band_SSL_albedo
    rw [if_neg (by linarith), if_neg (by linarith)]
  · unfold calculate_band_SSL_transmittance calculate_band_SSL_albedo
    rw [if_neg (by linarith), if_neg (by linarith)]
    rfl

/-- Witness for C9 at band `0` and depth `-1`. -/
theorem C9_witness :
    ((-1 : ℚ) < 0) ∧
    (calculate_band_SSL_albedo 0 0 = Except.ok 0 ∧
     calculate_band_SSL_transmittance 0 0 = Except.ok 1 ∧
     (calculate_band_SSL_albedo (-1) 0 = Except.error "SSL depth must be non-negative" ∧
      calculate_band_SSL_transmittance (-1) 0 =
        Except.error "SSL depth must be non-negative")) :=
  ⟨by norm_num,
   (C9_SSL_boundary_cases 0 (-1)).1,
   (C9_SSL_boundary_cases 0 (-1)).2.1,
   (C9_SSL_boundary_cases 0 (-1)).2.2 (by norm_num)⟩

/-- C4: for every `SixBandSpectralIrradiance` with non-negative SSL depth and
every band, the combined albedo accessor returns exactly
`snow_albedo + snow_transmittance * SSL_albedo
 + snow_transmittance * SSL_transmittance * ice_albedo`, where `ice_albedo` is
the ice-only upwelling at the surface row and the snow/SSL values come from the
band lookup functions at the stored depths. -/
theorem C4_six_band_albedo_decomposition {nz : ℕ} (s : SixBandSpectralIrradiance nz)
    (i : Fin 6) (hd : 0 ≤ s.SSL_depth) :
    s.albedo i = Except.ok
      (calculate_band_snow_albedo s.snow_depth i +
        calculate_band_snow_transmittance s.snow_depth i * SSL_albedo_value s.SSL_depth i +
        calculate_band_snow_transmittance s.snow_depth i *
          SSL_transmittance_value s.SSL_depth i * s.upwelling (Fin.last nz) i) := by
  rcases lt_or_eq_of_le hd with hpos | hzero
  · unfold SixBandSpectralIrradiance.albedo calculate_band_SSL_transmittance
      calculate_band_SSL_albedo SSL_transmittance_value SSL_albedo_value
      SixBandSpectralIrradiance.ice_albedo
    rw [if_pos hpos, if_pos hpos]
    rfl
  · unfold SixBandSpectralIrradiance.albedo calculate_band_SSL_transmittance
      calculate_band_SSL_albedo SSL_transmittance_value SSL_albedo_value
      SixBandSpectralIrradiance.ice_albedo
    rw [if_neg (by rw [← hzero]; exact lt_irrefl 0), if_pos hzero.symm,
      if_neg (by rw [← hzero]; exact lt_irrefl 0)]
    rfl

/-- A concrete one-node six band irradiance used as the C4 witness input. -/
noncomputable def exampleSixBand : SixBandSpectralIrradiance 0 where
  z := fun _ => 0
  upwelling := fun _ _ => 0
  downwelling := fun _ _ => 0
  snow_depth := 0
  SSL_depth := 0
  ice_base_index := 0

/-- Witness for C4 on `exampleSixBand` at band `0`. -/
theorem C4_witness :
    (0 : ℚ) ≤ exampleSixBand.SSL_depth ∧
    exampleSixBand.albedo 0 = Except.ok
      (calculate_band_snow_albedo exampleSixBand.snow_depth 0 +
        calculate_band_snow_transmittance exampleSixBand.snow_depth 0 *
          SSL_albedo_value exampleSixBand.SSL_depth 0 +
        calculate_band_snow_transmittance exampleSixBand.snow_depth 0 *
          SSL_transmittance_value exampleSixBand.SSL_depth 0 *
          exampleSixBand.upwelling (Fin.last 0) 0) :=
  ⟨le_refl 0, C4_six_band_albedo_decomposition exampleSixBand 0 (le_refl 0)⟩

/-- C5: solving wavelength band `5` (1200-3000 nm) performs no BVP solve — the
result is the same for every BVP solver — and returns identically zero
upwelling and zero downwelling except for a single non-zero value at the last
(surface) node equal to the snow transmittance alone for band `5` (not
multiplied by the SSL transmittance), which is strictly positive. -/
theorem C5_six_band_high_band_short_circuit {nz : ℕ}
    (bvp : Fin 6 → (Fin (nz + 1) → ℝ) × (Fin (nz + 1) → ℝ)) (d : ℚ) :
    solve_a_wavelength_band bvp d 5 =
      (fun _ => 0,
       fun j => if j = Fin.last nz then calculate_band_snow_transmittance d 5 else 0) ∧
    0 < calculate_band_snow_transmittance d 5 := by
  constructor
  · unfold solve_a_wavelength_band
    rw [if_pos rfl]
  · have h5 : SNOW_SPECTRAL_ALBEDOS (5 : Fin 6) = 0 := rfl
    unfold calculate_band_snow_transmittance calculate_band_snow_albedo
    rw [h5, zero_mul, sub_zero, one_mul]
    exact Real.exp_pos _

/-- C7 counterexample: a `SpectralIrradiance` whose strictly increasing grid
is `[-1, 0]`: the albedo accessor does not return the upwelling value at the
first (topmost-in-the-claim) grid point; it returns the value at the last
point. -/
noncomputable def exampleSpectral : SpectralIrradiance 1 1 where
  z := ![(-1 : ℝ), 0]
  wavelengths := fun _ => 400
  upwelling := fun j _ => if j = 0 then 1 else 0
  downwelling := fun _ _ => 0
  ice_base_index := 0

/-- C7 counterexample: the claim identifies the first grid point with the ice
surface and asserts `albedo = upwelling` there, but the accessor reads the last
row: on `exampleSpectral` (ascending grid `[-1, 0]`) the two differ. -/
theorem C7_counterexample :
    exampleSpectral.z ⟨0, by norm_num⟩ < exampleSpectral.z ⟨1, by norm_num⟩ ∧
    exampleSpectral.albedo 0 ≠ exampleSpectral.upwelling ⟨0, by norm_num⟩ 0 := by
  constructor
  · have h1 : exampleSpectral.z ⟨0, by norm_num⟩ = -1 := rfl
    have h2 : exampleSpectral.z ⟨1, by norm_num⟩ = 0 := rfl
    rw [h1, h2]
    norm_num
  · have hA : exampleSpectral.albedo 0 = 0 := by
      show (if (Fin.last 1 : Fin 2) = 0 then (1:ℝ) else 0) = 0
      rw [if_neg (show (Fin.last 1 : Fin 2) ≠ 0 by decide)]
    have hB : exampleSpectral.upwelling ⟨0, by norm_num⟩ 0 = 1 := by
      show (if (⟨0, by norm_num⟩ : Fin 2) = 0 then (1:ℝ) else 0) = 1
      rw [if_pos (by decide)]
    rw [hA, hB]
    norm_num

/-- C7 (amended): the depth grid ascends from the ice base to the surface, so
for a strictly increasing grid the surface (topmost, maximal `z`) point is the
LAST grid point; accordingly the albedo accessor returns the upwelling value at
the last grid point and the transmittance accessor the downwelling value at the
stored ice-base row index. -/
theorem C7_accessor_rows {nz nw : ℕ} (s : SpectralIrradiance nz nw)
    (hz : StrictMono s.z) (i : Fin nw) (j : Fin (nz + 1)) :
    s.z j ≤ s.z (Fin.last nz) ∧
    s.albedo i = s.upwelling (Fin.last nz) i ∧
    s.transmittance i = s.downwelling s.ice_base_index i :=
  ⟨hz.monotone (Fin.le_last j), rfl, rfl⟩

/-- A one-node spectral irradiance used as the C7 witness input. -/
noncomputable def exampleSpectral1 : SpectralIrradiance 0 1 where
  z := fun _ => 0
  wavelengths := fun _ => 400
  upwelling := fun _ _ => 0
  downwelling := fun _ _ => 0
  ice_base_index := 0

/-- Witness for the amended C7 on `exampleSpectral1`. -/
theorem C7_witness :
    StrictMono exampleSpectral1.z ∧
    (exampleSpectral1.z 0 ≤ exampleSpectral1.z (Fin.last 0) ∧
     exampleSpectral1.albedo 0 = exampleSpectral1.upwelling (Fin.last 0) 0 ∧
     exampleSpectral1.transmittance 0 =
       exampleSpectral1.downwelling exampleSpectral1.ice_base_index 0) :=
  have hz : StrictMono exampleSpectral1.z := by
    intro a b hab
    rw [Fin.lt_def] at hab
    have := a.isLt
    have := b.isLt
    omega
  ⟨hz, C7_accessor_rows exampleSpectral1 hz 0 0⟩

/-- C8: the two-layer model applies no validation to `thickness_ratio`.  The
only failure the code can produce is the division by zero at
`thickness_ratio = 0`; values outside `(0,1)` such as `2` or `-1/2` are
silently accepted and the concentrated oil mass ratio is computed from them
(contradicting the claimed validation error). -/
theorem C8_no_thickness_ratio_validation :
    top_oil_mass_ratio 10 2 = Except.ok 5 ∧
    top_oil_mass_ratio 10 (-1/2) = Except.ok (-20) ∧
    top_oil_mass_ratio 10 0 = Except.error "ZeroDivisionError: float division by zero" := by
  refine ⟨?_, ?_, ?_⟩ <;> norm_num [top_oil_mass_ratio]

end Oilrad
